import Mathlib

/-!
Verification development for the wscat-rs repository (src/client.rs, src/main.rs).

The client's core is `wscat_client` (session coordinator: stdin loop, stdout
loop, ws thread) and `ws_client` (network bridge: receive/transmit sub-tasks).
We embed:
  * the tungstenite `Message` type and the methods the client uses
    (`is_text`, `is_binary`, `into_text`), with Rust's `String::from_utf8`
    modelled by an executable UTF-8 decoder;
  * the receive sub-task (client.rs lines 95-131) as a per-frame effect list
    `processWsMessage` and an effect trace `readTask`;
  * the stdout loop (client.rs lines 47-55) as `stdoutIter` / `stdoutLoop`;
  * the stdin loop and its join phase (client.rs lines 57-77) as
    `inputLoopRun` / `wscat_client_mainThread` (for the pre-connect-failure
    scenario where the ws thread has already terminated);
  * a small-step transition system `Step` over `SysState` for the live
    session, with the outbound queue capacity 10 from
    `piper::chan::<Message>(10)` (client.rs line 28).
-/

namespace Wscat

/-! ### UTF-8 validation/decoding, modelling Rust's `String::from_utf8` -/

/-- A UTF-8 continuation byte: `10xxxxxx`. -/
def contByte (b : Nat) : Bool := 0x80 ≤ b && b < 0xC0

/-- Fuel-indexed UTF-8 decoder over a byte list.  Accepts exactly well-formed
UTF-8 (no overlong encodings, no surrogates, max `U+10FFFF`), as Rust's
`String::from_utf8` does.  `fuel ≥ length` guarantees the fuel never runs
out, since every recursive call consumes at least one byte. -/
def utf8DecodeAux : Nat → List Nat → Option (List Char)
  | _, [] => some []
  | 0, _ :: _ => none
  | fuel + 1, b0 :: rest =>
    if b0 < 0x80 then
      match utf8DecodeAux fuel rest with
      | some cs => some (Char.ofNat b0 :: cs)
      | none => none
    else if b0 < 0xC2 then
      none
    else if b0 < 0xE0 then
      match rest with
      | b1 :: rest1 =>
        if contByte b1 then
          match utf8DecodeAux fuel rest1 with
          | some cs => some (Char.ofNat ((b0 - 0xC0) * 0x40 + (b1 - 0x80)) :: cs)
          | none => none
        else none
      | [] => none
    else if b0 < 0xF0 then
      match rest with
      | b1 :: b2 :: rest2 =>
        if contByte b1 && contByte b2 &&
            (decide (b0 ≠ 0xE0) || decide (0xA0 ≤ b1)) &&
            (decide (b0 ≠ 0xED) || decide (b1 < 0xA0)) then
          match utf8DecodeAux fuel rest2 with
          | some cs =>
              some (Char.ofNat ((b0 - 0xE0) * 0x1000 + (b1 - 0x80) * 0x40 + (b2 - 0x80)) :: cs)
          | none => none
        else none
      | _ => none
    else if b0 < 0xF5 then
      match rest with
      | b1 :: b2 :: b3 :: rest3 =>
        if contByte b1 && contByte b2 && contByte b3 &&
            (decide (b0 ≠ 0xF0) || decide (0x90 ≤ b1)) &&
            (decide (b0 ≠ 0xF4) || decide (b1 < 0x90)) then
          match utf8DecodeAux fuel rest3 with
          | some cs =>
              some (Char.ofNat ((b0 - 0xF0) * 0x40000 + (b1 - 0x80) * 0x1000 +
                (b2 - 0x80) * 0x40 + (b3 - 0x80)) :: cs)
          | none => none
        else none
      | _ => none
    else none

/-- `String::from_utf8(bytes)` as an `Option`: `some` on valid UTF-8,
`none` where the Rust call returns `Err` (and an `.unwrap()` would panic). -/
def utf8DecodeString (l : List Nat) : Option String :=
  (utf8DecodeAux l.length l).map fun cs => String.mk cs

/-! ### The tungstenite `Message` type, as used by client.rs -/

/-- `async_tungstenite::tungstenite::Message`: the wire-frame variants.
The close frame's payload is reduced to its optional reason text (the code
only ever matches `Close(_)`). -/
inductive Message where
  | text (payload : String)
  | binary (payload : List Nat)
  | ping (payload : List Nat)
  | pong (payload : List Nat)
  | close (reason : Option String)
  deriving DecidableEq, Repr

/-- `Message::is_text`. -/
def Message.is_text : Message → Bool
  | .text _ => true
  | _ => false

/-- `Message::is_binary`. -/
def Message.is_binary : Message → Bool
  | .binary _ => true
  | _ => false

/-- `Message::into_text`, which UTF-8-decodes non-text payloads; `none`
models the `Err` case (so `.unwrap()` on it is a panic). -/
def Message.into_text : Message → Option String
  | .text s => some s
  | .binary b => utf8DecodeString b
  | .ping b => utf8DecodeString b
  | .pong b => utf8DecodeString b
  | .close none => some ""
  | .close (some r) => some r

/-- The text payload of a text message (and `""` otherwise); used to state
what the stdout loop prints for receive-enqueued messages. -/
def Message.textPayload : Message → String
  | .text s => s
  | _ => ""

/-- `ansi_term`'s `Colour::paint` rendered with the standard SGR escape
sequence; `Red` is code 31, `Green` 32. -/
def ansiPaint (code : Nat) (s : String) : String :=
  "\x1b[" ++ toString code ++ "m" ++ s ++ "\x1b[0m"

/-! ### The receive sub-task (client.rs lines 95-131) -/

/-- One item delivered by `reader.next()`: `Ok(message)` or a transport
read error (rendered as its display string). -/
inductive WsReadResult where
  | ok (m : Message)
  | err (e : String)
  deriving DecidableEq, Repr

/-- An observable action of the receive sub-task, in program order:
sends on the two channels, `println!`, `process::exit`, or a panic. -/
inductive Effect where
  | sendOutbound (m : Message)
  | sendStdout (m : Message)
  | println (s : String)
  | exit (code : Nat)
  | panicked
  deriving DecidableEq, Repr

/-- The body of the receive sub-task's `while let` loop for one delivered
item (client.rs lines 97-129), as the ordered list of effects it performs:

* a read error prints a blank line and the painted `Connection Closed`
  message, then `process::exit(1)`;
* `Ping(payload)` first sends `Pong(payload)` on the outbound channel, then
  sends the painted `"Ping!\n"` notice to the stdout channel;
* `Text` forwards the payload to the stdout channel;
* `Binary` decodes the payload with `String::from_utf8(..).unwrap()` —
  a panic when the payload is not valid UTF-8;
* `Close(_)` prints a blank line and the painted close announcement, then
  `process::exit(0)`;
* the remaining variant (`Pong`) hits the `_` arm and forwards the
  `"Unsupported ws message"` placeholder.

Every stdout-channel send wraps its string with `Message::text` (line 129). -/
def processWsMessage : WsReadResult → List Effect
  | .err e =>
      [.println "", .println (ansiPaint 31 ("Connection Closed: " ++ e)), .exit 1]
  | .ok m =>
    match m with
    | .ping p => [.sendOutbound (.pong p), .sendStdout (.text (ansiPaint 32 "Ping!\n"))]
    | .text s => [.sendStdout (.text s)]
    | .binary b =>
      match utf8DecodeString b with
      | some s => [.sendStdout (.text s)]
      | none => [.panicked]
    | .close _ =>
      [.println "", .println (ansiPaint 31 "Connection Closed: Close message received"),
        .exit 0]
    | .pong _ => [.sendStdout (.text "Unsupported ws message")]

/-- Effects that end the whole process (no further loop iteration runs). -/
def Effect.isTerminal : Effect → Bool
  | .exit _ => true
  | .panicked => true
  | _ => false

/-- Whether an effect is a send on the outbound (ws-write) channel. -/
def Effect.isOutboundSend : Effect → Bool
  | .sendOutbound _ => true
  | _ => false

/-- Whether an effect writes to either channel. -/
def Effect.isQueueWrite : Effect → Bool
  | .sendOutbound _ => true
  | .sendStdout _ => true
  | _ => false

/-- The receive sub-task's effect trace over a list of delivered read
results: frames are processed in order, and a terminal effect
(`process::exit` or a panic) stops the loop. -/
def readTask : List WsReadResult → List Effect
  | [] => []
  | r :: rest =>
    let effs := processWsMessage r
    if effs.any Effect.isTerminal then effs else effs ++ readTask rest

/-- A message the receive sub-task can place on the inbound (stdout) queue:
it occurs as a stdout-channel send in some receive trace. -/
def ReceiveEnqueueable (m : Message) : Prop :=
  ∃ wire : List WsReadResult, Effect.sendStdout m ∈ readTask wire

/-! ### The stdout loop (client.rs lines 47-55) -/

/-- One iteration of the stdout loop: a message that is neither text nor
binary is skipped (`continue`) printing nothing; otherwise the loop prints
one line `"<< " ++ message.into_text().unwrap()` — `none` is the panic of
that unwrap. -/
def stdoutIter (m : Message) : Option (List String) :=
  if (m.is_text || m.is_binary) = false then some []
  else
    match m.into_text with
    | some s => some ["<< " ++ s]
    | none => none

/-- The stdout loop over the messages it consumes, in order; `none` when an
iteration panics. -/
def stdoutLoop : List Message → Option (List String)
  | [] => some []
  | m :: rest =>
    match stdoutIter m with
    | none => none
    | some ls => (stdoutLoop rest).map fun tl => ls ++ tl

/-! ### The stdin loop and join phase (client.rs lines 57-77) -/

/-- `linefeed::Signal` as the client uses it: only `Interrupt` is compared
against (line 68); every other delivered signal is `other`. -/
inductive Signal where
  | interrupt
  | other
  deriving DecidableEq, Repr

/-- `linefeed::ReadResult`. -/
inductive ReadResult where
  | input (s : String)
  | signal (sig : Signal)
  | eof
  deriving DecidableEq, Repr

/-- Observable actions of the stdin loop. -/
inductive CoordEvent where
  | historyAdd (s : String)
  | enqueued (m : Message)
  deriving DecidableEq, Repr

/-- How the stdin loop's `loop` ends. -/
inductive InputEnd where
  | eofEnd
  | interrupted
  | blocked
  deriving DecidableEq, Repr

/-- How `wscat_client`'s main thread ends. -/
inductive CoordOutcome where
  | exited (code : Nat)
  | panicked
  | returnedOk
  | blockedForever
  deriving DecidableEq, Repr

/-- The stdin loop (client.rs lines 58-72) over a list of delivered read
results, carrying the number of messages sitting unconsumed in the outbound
channel: each submitted line is added to history, then sent with a blocking
send into the capacity-10 channel (a send into a full channel with no
consumer blocks, `blocked`); `Signal(Interrupt)` is `process::exit(0)`;
`Eof` is the `_ => break` arm.  Returns (events, how the loop ended,
messages now queued). -/
def inputLoopRun : List ReadResult → Nat → List CoordEvent × InputEnd × Nat
  | [], q => ([], .eofEnd, q)
  | .input str :: rest, q =>
    if q < 10 then
      let r := inputLoopRun rest (q + 1)
      (.historyAdd str :: .enqueued (.text str) :: r.1, r.2)
    else
      ([.historyAdd str], .blocked, q)
  | .signal sig :: rest, q =>
    if sig = .interrupt then ([], .interrupted, q) else inputLoopRun rest q
  | .eof :: _, q => ([], .eofEnd, q)

/-- The pre-connect phase of `ws_client` (client.rs lines 85-90): derive
host (`context("can't parse host")`) and port (`context("can't guess
port")`) from the URL, then TCP-connect and perform the protocol upgrade,
each of which may fail (modelled as oracle results).  The first failure is
returned as the task's error. -/
def ws_client_preconnect (host : Option String) (port : Option Nat)
    (connectRes handshakeRes : Except String Unit) : Except String Unit :=
  match host with
  | none => .error "can't parse host"
  | some _ =>
    match port with
    | none => .error "can't guess port"
    | some _ =>
      match connectRes with
      | .error e => .error e
      | .ok _ => handshakeRes

/-- `wscat_client`'s main thread (client.rs lines 57-77) in the scenario
where the ws thread has already terminated with result `wsResult` (the
pre-connect-failure case: `ws_client` returned before spawning its
sub-tasks, so nothing consumes the outbound channel).  The stdin loop runs
first; only when it breaks on end-of-input does line 74's
`ws_handle.join().unwrap().unwrap()` inspect `wsResult` — an `Err` makes
the second `.unwrap()` panic (process aborts with the non-zero panic exit
status), an `Ok` lets the function return `Ok(())`.  An interrupt inside
the loop is `process::exit(0)` before any join. -/
def wscat_client_mainThread (wsResult : Except String Unit) (events : List ReadResult) :
    List CoordEvent × CoordOutcome :=
  let r := inputLoopRun events 0
  match r.2.1 with
  | .interrupted => (r.1, .exited 0)
  | .blocked => (r.1, .blockedForever)
  | .eofEnd =>
    match wsResult with
    | .error _ => (r.1, .panicked)
    | .ok _ => (r.1, .returnedOk)

/-! ### The live session as a small-step transition system

After a successful handshake `wscat_client` runs three execution contexts:
the main thread's stdin loop followed by the two joins (lines 58-75), the
stdout thread (lines 47-55), and the ws thread running the receive and
transmit sub-tasks cooperatively on one `smol` executor (lines 95-139).
The state below carries both queues, the environment (pending stdin events
and pending wire deliveries), and each context's control point; `Step` is
one scheduling of one context.  The receive sub-task processes one
delivered frame per step: its match arms contain no suspension point other
than the outbound send in the `Ping` arm (the executor is single-threaded,
so no other sub-task runs inside an arm), which is why a frame's effects
are applied atomically, with the `Ping` arm guarded by space in the
capacity-10 outbound channel.  Task cancellation after `future::select`
resolves is not modelled (a cancelled sub-task simply takes no more
steps). -/

/-- Control point of the main thread: the stdin loop, the two joins of
line 74-75, or `wscat_client` returned. -/
inductive MainPhase where
  | inputLoop
  | joinWs
  | joinStdout
  | done
  deriving DecidableEq, Repr

/-- Whether the process is still running, has exited with a status code, or
aborted by panic. -/
inductive ProcStatus where
  | running
  | exited (code : Nat)
  | panicked
  deriving DecidableEq, Repr

/-- One global state of the session. -/
structure SysState where
  /-- stdin events not yet delivered to `readline.read_line()`. -/
  stdin : List ReadResult
  /-- wire deliveries not yet returned by `reader.next()`. -/
  wire : List WsReadResult
  /-- whether the stream will end (`reader.next()` returns `None`) after
  `wire` is exhausted; `false` models an open, idle connection. -/
  wireClosed : Bool
  /-- content of the capacity-10 `piper` channel (client.rs line 28). -/
  outboundQ : List Message
  /-- content of the unbounded mpsc channel to the stdout loop (line 27). -/
  stdoutQ : List Message
  /-- frames the transmit sub-task has written to the wire. -/
  transmitted : List Message
  /-- terminal lines, from both `println!` and the stdout loop's writer. -/
  printed : List String
  /-- the readline history (line 61). -/
  history : List String
  /-- the receive sub-task's `while let` loop has ended. -/
  readDone : Bool
  /-- the transmit sub-task's `forward` has completed. -/
  writeDone : Bool
  /-- `smol::run(ws_client(..))` has returned, ending the ws thread. -/
  wsThreadDone : Bool
  /-- the stdout thread's `for` loop has ended. -/
  stdoutDone : Bool
  /-- control point of the main thread. -/
  mainPhase : MainPhase
  /-- process liveness. -/
  status : ProcStatus
  deriving DecidableEq, Repr

/-- The session state right after the handshake: empty queues, nothing
transmitted or printed, every context at its entry point. -/
def initState (stdin : List ReadResult) (wire : List WsReadResult) (wireClosed : Bool) :
    SysState :=
  { stdin := stdin, wire := wire, wireClosed := wireClosed, outboundQ := [], stdoutQ := [],
    transmitted := [], printed := [], history := [], readDone := false, writeDone := false,
    wsThreadDone := false, stdoutDone := false, mainPhase := .inputLoop, status := .running }

/-- Apply one effect of the receive sub-task to the state (a dead process
changes nothing). -/
def applyEffect (s : SysState) (e : Effect) : SysState :=
  match s.status with
  | .exited _ => s
  | .panicked => s
  | .running =>
    match e with
    | .sendOutbound m => { s with outboundQ := s.outboundQ ++ [m] }
    | .sendStdout m => { s with stdoutQ := s.stdoutQ ++ [m] }
    | .println str => { s with printed := s.printed ++ [str] }
    | .exit n => { s with status := .exited n }
    | .panicked => { s with status := .panicked }

/-- Apply a frame's effects in program order. -/
def applyEffects (s : SysState) (es : List Effect) : SysState :=
  es.foldl applyEffect s

/-- One iteration of the stdout loop applied to the state: the filter of
lines 49-51 skips non-text/non-binary messages; otherwise the locked writer
prints `"<< " ++ into_text().unwrap()`, a panic if the conversion fails. -/
def stdoutApply (s : SysState) (m : Message) : SysState :=
  match stdoutIter m with
  | some ls => { s with printed := s.printed ++ ls }
  | none => { s with status := .panicked }

/-- Whether the outbound channel's producer side is closed: its senders are
the one `wscat_client` owns until it returns (line 28; dropped only at the
end of the function, after both joins), the one `ws_client`'s scope holds
(lines 82-83), and the receive sub-task's clone (line 110) — so all are
dropped only once the main thread has returned AND the receive sub-task and
ws thread are finished. -/
def outboundClosed (s : SysState) : Bool :=
  decide (s.mainPhase = .done) && s.readDone && s.wsThreadDone

/-- Whether the stdout channel's producer side is closed: `tx_to_stdout` is
owned by the receive sub-task (moved into its closure), so it drops when
that sub-task finishes. -/
def stdoutClosed (s : SysState) : Bool :=
  s.readDone

/-- Whether processing this delivery performs a blocking send into the
outbound channel (only the `Ping` arm does, line 110). -/
def needsOutboundSpace : WsReadResult → Bool
  | .ok (.ping _) => true
  | _ => false

/-- One step of one execution context.  Every step requires the process to
be running: `process::exit` and panics stop all three contexts. -/
inductive Step : SysState → SysState → Prop where
  /-- stdin loop, `ReadResult::Input` arm (lines 60-64): record history,
  then a blocking send into the outbound channel — enabled only while the
  capacity-10 channel has space. -/
  | stdinInput (s : SysState) (str : String) (rest : List ReadResult)
      (hrun : s.status = .running) (hph : s.mainPhase = .inputLoop)
      (hst : s.stdin = .input str :: rest) (hcap : s.outboundQ.length < 10) :
      Step s { s with stdin := rest, history := s.history ++ [str], outboundQ := s.outboundQ ++ [.text str] }
  /-- stdin loop, `Signal(Interrupt)` arm (lines 65-69): `process::exit(0)`. -/
  | stdinInterrupt (s : SysState) (rest : List ReadResult)
      (hrun : s.status = .running) (hph : s.mainPhase = .inputLoop)
      (hst : s.stdin = .signal .interrupt :: rest) :
      Step s { s with stdin := rest, status := .exited 0 }
  /-- stdin loop, a delivered non-interrupt signal: the `if` of line 68
  does nothing and the loop continues. -/
  | stdinOtherSig (s : SysState) (sig : Signal) (rest : List ReadResult)
      (hrun : s.status = .running) (hph : s.mainPhase = .inputLoop)
      (hst : s.stdin = .signal sig :: rest) (hsig : sig ≠ .interrupt) :
      Step s { s with stdin := rest }
  /-- stdin loop, `_ => break` on `Eof` (line 70): proceed to the join
  phase. -/
  | stdinEof (s : SysState) (rest : List ReadResult)
      (hrun : s.status = .running) (hph : s.mainPhase = .inputLoop)
      (hst : s.stdin = .eof :: rest) :
      Step s { s with stdin := rest, mainPhase := .joinWs }
  /-- `ws_handle.join().unwrap().unwrap()` (line 74) completes once the ws
  thread has finished (in the post-handshake model `ws_client` returns
  `Ok(())`, so the unwraps succeed). -/
  | joinWs (s : SysState)
      (hrun : s.status = .running) (hph : s.mainPhase = .joinWs)
      (hws : s.wsThreadDone = true) :
      Step s { s with mainPhase := .joinStdout }
  /-- `stdout_handle.join().unwrap()` (line 75) completes once the stdout
  loop has ended; `wscat_client` then returns `Ok(())` and the process
  exits with status 0. -/
  | joinStdout (s : SysState)
      (hrun : s.status = .running) (hph : s.mainPhase = .joinStdout)
      (hsd : s.stdoutDone = true) :
      Step s { s with mainPhase := .done, status := .exited 0 }
  /-- The receive sub-task processes the next delivered frame (lines
  97-129).  The arm bodies run without interleaving on the single-threaded
  executor; the `Ping` arm's blocking outbound send requires channel
  space. -/
  | readMsg (s : SysState) (m : WsReadResult) (rest : List WsReadResult)
      (hrun : s.status = .running) (hrd : s.readDone = false)
      (hw : s.wire = m :: rest)
      (hcap : needsOutboundSpace m = true → s.outboundQ.length < 10) :
      Step s (applyEffects { s with wire := rest } (processWsMessage m))
  /-- `reader.next()` returns `None` (stream over): the `while let` loop
  ends and the receive sub-task completes, dropping its channel handles. -/
  | readEnd (s : SysState)
      (hrun : s.status = .running) (hrd : s.readDone = false)
      (hw : s.wire = []) (hc : s.wireClosed = true) :
      Step s { s with readDone := true }
  /-- `future::select(read_task, write_task)` resolves when either sub-task
  finishes; `ws_client` returns `Ok(())` and `smol::run` ends the ws
  thread (lines 138-141). -/
  | wsSelect (s : SysState)
      (hrun : s.status = .running) (hws : s.wsThreadDone = false)
      (hdone : s.readDone = true ∨ s.writeDone = true) :
      Step s { s with wsThreadDone := true }
  /-- The transmit sub-task forwards the next outbound message to the wire
  (lines 134-136). -/
  | writeSend (s : SysState) (m : Message) (rest : List Message)
      (hrun : s.status = .running) (hwd : s.writeDone = false)
      (hq : s.outboundQ = m :: rest) :
      Step s { s with outboundQ := rest, transmitted := s.transmitted ++ [m] }
  /-- The transmit sub-task's `forward` completes cleanly: the channel is
  empty and its producer side closed. -/
  | writeEnd (s : SysState)
      (hrun : s.status = .running) (hwd : s.writeDone = false)
      (hq : s.outboundQ = []) (hc : outboundClosed s = true) :
      Step s { s with writeDone := true }
  /-- The stdout loop consumes the next inbound message (lines 48-54). -/
  | stdoutMsg (s : SysState) (m : Message) (rest : List Message)
      (hrun : s.status = .running) (hsd : s.stdoutDone = false)
      (hq : s.stdoutQ = m :: rest) :
      Step s (stdoutApply { s with stdoutQ := rest } m)
  /-- The stdout loop's `for` ends: the mpsc channel is empty and its
  sender dropped. -/
  | stdoutEnd (s : SysState)
      (hrun : s.status = .running) (hsd : s.stdoutDone = false)
      (hq : s.stdoutQ = []) (hc : stdoutClosed s = true) :
      Step s { s with stdoutDone := true }

/-- Reachability under any interleaving of the three contexts. -/
def Reachable : SysState → SysState → Prop :=
  Relation.ReflTransGen Step

/-- A session state with the outbound channel filled by `k` typed lines and
`10 - k` input events still pending: the intermediate states of typing ten
lines with the transmit sub-task never scheduled. -/
def fillState (k : Nat) : SysState :=
  { stdin := List.replicate (10 - k) (ReadResult.input "x"), wire := [], wireClosed := false,
    outboundQ := List.replicate k (Message.text "x"), stdoutQ := [], transmitted := [],
    printed := [], history := List.replicate k "x", readDone := false, writeDone := false,
    wsThreadDone := false, stdoutDone := false, mainPhase := .inputLoop, status := .running }

attribute [ext] SysState

/-- The initial state of the C3 scenario: end-of-input is the only stdin
event, the connection open and idle. -/
def c3Init : SysState := initState [ReadResult.eof] [] false

/-- The state after the input loop breaks on end-of-input: the main thread
is at `ws_handle.join()` (client.rs line 74). -/
def c3Stuck : SysState := { c3Init with stdin := [], mainPhase := .joinWs }

/-! ### Helper lemmas -/

/-- Effects of the receive sub-task never touch the stdin event stream. -/
theorem applyEffect_stdin (s : SysState) (e : Effect) : (applyEffect s e).stdin = s.stdin := by
  unfold applyEffect
  cases hs : s.status <;> cases e <;> simp

/-- Effects of the receive sub-task never touch the wire input. -/
theorem applyEffect_wire (s : SysState) (e : Effect) : (applyEffect s e).wire = s.wire := by
  unfold applyEffect
  cases hs : s.status <;> cases e <;> simp

/-- `applyEffects` never touches the stdin event stream. -/
theorem applyEffects_stdin (s : SysState) (es : List Effect) :
    (applyEffects s es).stdin = s.stdin := by
  induction es generalizing s with
  | nil => rfl
  | cons e tl ih => rw [applyEffects, List.foldl_cons, ← applyEffects, ih, applyEffect_stdin]

/-- `applyEffects` never touches the wire input. -/
theorem applyEffects_wire (s : SysState) (es : List Effect) :
    (applyEffects s es).wire = s.wire := by
  induction es generalizing s with
  | nil => rfl
  | cons e tl ih => rw [applyEffects, List.foldl_cons, ← applyEffects, ih, applyEffect_wire]

/-- A stdout-loop iteration never touches the stdin event stream. -/
theorem stdoutApply_stdin (s : SysState) (m : Message) : (stdoutApply s m).stdin = s.stdin := by
  unfold stdoutApply
  cases h : stdoutIter m <;> simp

/-- A stdout-loop iteration never touches the wire input. -/
theorem stdoutApply_wire (s : SysState) (m : Message) : (stdoutApply s m).wire = s.wire := by
  unfold stdoutApply
  cases h : stdoutIter m <;> simp

/-- A stdout-loop iteration never touches the outbound channel. -/
theorem stdoutApply_outboundQ (s : SysState) (m : Message) :
    (stdoutApply s m).outboundQ = s.outboundQ := by
  unfold stdoutApply
  cases h : stdoutIter m <;> simp

/-- Processing a read error: two `println!`s, then `process::exit(1)`;
the queues are untouched. -/
theorem applyEffects_err (s : SysState) (hrun : s.status = .running) (e : String) :
    applyEffects s (processWsMessage (.err e)) =
      { s with printed := s.printed ++ ["", ansiPaint 31 ("Connection Closed: " ++ e)],
               status := .exited 1 } := by
  simp [processWsMessage, applyEffects, applyEffect, hrun]

/-- Processing a received close frame: two `println!`s, then
`process::exit(0)`; the queues are untouched. -/
theorem applyEffects_close (s : SysState) (hrun : s.status = .running) (r : Option String) :
    applyEffects s (processWsMessage (.ok (.close r))) =
      { s with printed :=
          s.printed ++ ["", ansiPaint 31 "Connection Closed: Close message received"],
               status := .exited 0 } := by
  simp [processWsMessage, applyEffects, applyEffect, hrun]

/-- Every step requires a live process: nothing runs after `process::exit`
or a panic. -/
theorem step_requires_running {s t : SysState} (h : Step s t) : s.status = .running := by
  cases h <;> assumption

/-- Everything the receive sub-task sends to the stdout channel is built
with `Message::text` (client.rs line 129). -/
theorem sendStdout_text_of_mem_process {r : WsReadResult} {m : Message}
    (h : Effect.sendStdout m ∈ processWsMessage r) : ∃ s, m = Message.text s := by
  cases r with
  | err e => simp [processWsMessage] at h
  | ok msg =>
    cases msg with
    | text s =>
      simp [processWsMessage] at h
      exact ⟨s, h⟩
    | binary b =>
      cases hd : utf8DecodeString b with
      | none => simp [processWsMessage, hd] at h
      | some s =>
        simp [processWsMessage, hd] at h
        exact ⟨s, h⟩
    | ping p =>
      simp [processWsMessage] at h
      exact ⟨ansiPaint 32 "Ping!\n", h⟩
    | pong p =>
      simp [processWsMessage] at h
      exact ⟨"Unsupported ws message", h⟩
    | close r' => simp [processWsMessage] at h

/-- Every effect of a receive trace comes from processing one delivered
frame of the wire input. -/
theorem mem_readTask_process {wire : List WsReadResult} {e : Effect}
    (h : e ∈ readTask wire) : ∃ r ∈ wire, e ∈ processWsMessage r := by
  induction wire with
  | nil => simp [readTask] at h
  | cons r rest ih =>
    rw [readTask] at h
    by_cases hterm : (processWsMessage r).any Effect.isTerminal
    · rw [if_pos hterm] at h
      exact ⟨r, List.mem_cons_self r rest, h⟩
    · rw [if_neg hterm] at h
      rcases List.mem_append.1 h with h1 | h2
      · exact ⟨r, List.mem_cons_self r rest, h1⟩
      · obtain ⟨r', hr', he⟩ := ih h2
        exact ⟨r', List.mem_cons_of_mem r hr', he⟩

/-- The stdout loop over a queue of text messages prints each exactly once
with the `"<< "` marker, in order. -/
theorem stdoutLoop_text (q : List Message) (h : ∀ m ∈ q, ∃ s, m = Message.text s) :
    stdoutLoop q = some (q.map fun m => "<< " ++ m.textPayload) := by
  induction q with
  | nil => rfl
  | cons m rest ih =>
    obtain ⟨s, rfl⟩ := h m (List.mem_cons_self m rest)
    have hrest := ih fun m' hm' => h m' (List.mem_cons_of_mem _ hm')
    simp [stdoutLoop, stdoutIter, Message.is_text, Message.is_binary, Message.into_text,
      Message.textPayload, hrest]

/-! ### Claim theorems -/

/-- C1: the claim says a Binary frame whose payload is not valid UTF-8 is
rejected and reported without crashing the session.  The code instead
calls `String::from_utf8(payload).unwrap()` (client.rs line 116): at the
failing input `[0xFF]` the decode fails and the receive context panics —
the trace is a bare panic, no report and no surviving session. -/
theorem c1_binary_invalid_utf8_crashes :
    utf8DecodeString [0xFF] = none ∧
      processWsMessage (.ok (.binary [0xFF])) = [.panicked] ∧
      readTask [.ok (.binary [0xFF])] = [.panicked] :=
  ⟨by decide, by decide, by decide⟩

/-- C2 (counterexample): with the ws thread already failed pre-connect
(`Err("connect failed")`), the stdin loop still runs: the line `hello` is
recorded in history and enqueued, and only after end-of-input does the
coordinator abort — by a panic on the unwrapped join result, not by
returning the error.  So the failure neither surfaces synchronously nor
aborts startup before the input loop continues. -/
theorem c2_counterexample :
    wscat_client_mainThread (.error "connect failed") [.input "hello", .eof] =
      ([.historyAdd "hello", .enqueued (.text "hello")], .panicked) := rfl

/-- The stdin loop processes every line of input up to end-of-input, as
long as the capacity-10 outbound channel does not fill. -/
theorem inputLoopRun_inputs (inputs : List String) (q : Nat) (h : q + inputs.length ≤ 10) :
    inputLoopRun (inputs.map ReadResult.input ++ [ReadResult.eof]) q =
      (inputs.foldr
          (fun s acc => CoordEvent.historyAdd s :: CoordEvent.enqueued (Message.text s) :: acc)
          [],
        InputEnd.eofEnd, q + inputs.length) := by
  induction inputs generalizing q with
  | nil => simp [inputLoopRun]
  | cons s tl ih =>
    have hq : q < 10 := by simp [List.length_cons] at h; omega
    have h' : q + 1 + tl.length ≤ 10 := by simp [List.length_cons] at h; omega
    have harith : q + 1 + tl.length = q + (tl.length + 1) := by omega
    simp only [List.map_cons, List.cons_append, inputLoopRun, if_pos hq, List.append_eq,
      ih (q + 1) h', List.foldr_cons, List.length_cons, harith]

/-- C2 (amended): every pre-connect failure (address resolution, TCP
connect, or protocol-upgrade handshake) makes the Network Bridge task
finish with an error, but the Session Coordinator observes it only after
the Input Loop terminates on end-of-input: the loop still records and
enqueues every submitted line, and the process then aborts non-zero via a
panic on the unwrapped join result rather than an error return. -/
theorem c2_amended_late_error (host : Option String) (port : Option Nat)
    (connectRes handshakeRes : Except String Unit) (e : String) (inputs : List String)
    (hpre : ws_client_preconnect host port connectRes handshakeRes = .error e)
    (hlen : inputs.length ≤ 9) :
    wscat_client_mainThread (ws_client_preconnect host port connectRes handshakeRes)
        (inputs.map ReadResult.input ++ [ReadResult.eof]) =
      (inputs.foldr
          (fun s acc => CoordEvent.historyAdd s :: CoordEvent.enqueued (Message.text s) :: acc)
          [],
        CoordOutcome.panicked) := by
  rw [hpre]
  unfold wscat_client_mainThread
  rw [inputLoopRun_inputs inputs 0 (by omega)]

/-- Witness for C2's amended claim: a bad host, one typed line. -/
theorem c2_amended_witness :
    wscat_client_mainThread (ws_client_preconnect none (some 80) (.ok ()) (.ok ()))
        (["hello"].map ReadResult.input ++ [ReadResult.eof]) =
      ([CoordEvent.historyAdd "hello", CoordEvent.enqueued (Message.text "hello")],
        CoordOutcome.panicked) :=
  c2_amended_late_error none (some 80) (.ok ()) (.ok ()) "can't parse host" ["hello"] rfl
    (by decide)

/-- C4: a received `Ping(p)` makes the receive sub-task enqueue exactly one
`Pong(p)` reply on the outbound channel — the first effect of the
iteration, before any effect of any later frame — and also send the
painted `"Ping!\n"` notice to the inbound (stdout) queue, with no user
action involved (the trace depends on wire input alone). -/
theorem c4_ping_autoreply (p : List Nat) (rest : List WsReadResult) :
    readTask (.ok (.ping p) :: rest) =
      .sendOutbound (.pong p) :: .sendStdout (.text (ansiPaint 32 "Ping!\n")) :: readTask rest ∧
    (processWsMessage (.ok (.ping p))).filter Effect.isOutboundSend =
      [.sendOutbound (.pong p)] :=
  ⟨rfl, rfl⟩

/-- Witness for C4 at the spec's Scenario D payload `[1,2,3]`. -/
theorem c4_witness :
    readTask [.ok (.ping [1, 2, 3])] =
      [.sendOutbound (.pong [1, 2, 3]), .sendStdout (.text (ansiPaint 32 "Ping!\n"))] :=
  (c4_ping_autoreply [1, 2, 3] []).1

/-- C9: every message the receive sub-task places on the inbound queue is a
`Text` variant, so the stdout loop's non-text/non-binary filter never
discards it and `into_text` on it never fails. -/
theorem c9_inbound_queue_all_text (wire : List WsReadResult) (m : Message)
    (h : Effect.sendStdout m ∈ readTask wire) :
    (∃ s, m = Message.text s) ∧ (m.is_text || m.is_binary) = true ∧ m.into_text ≠ none := by
  obtain ⟨r, _, he⟩ := mem_readTask_process h
  obtain ⟨s, rfl⟩ := sendStdout_text_of_mem_process he
  exact ⟨⟨s, rfl⟩, rfl, by simp [Message.into_text]⟩

/-- Witness for C9: the frame `Text("hi")`. -/
theorem c9_witness :
    (∃ s, Message.text "hi" = Message.text s) ∧
      ((Message.text "hi").is_text || (Message.text "hi").is_binary) = true ∧
      (Message.text "hi").into_text ≠ none :=
  c9_inbound_queue_all_text [.ok (.text "hi")] (.text "hi") (by decide)

/-- C8: for every queue of messages the receive sub-task can have placed on
the inbound queue, the stdout loop prints each exactly once, in order,
prefixed with the `"<< "` marker; and any message that is neither textual
nor binary is silently dropped (its iteration prints nothing). -/
theorem c8_output_loop_prints (q : List Message) (h : ∀ m ∈ q, ReceiveEnqueueable m) :
    stdoutLoop q = some (q.map fun m => "<< " ++ m.textPayload) ∧
    ∀ m : Message, (m.is_text || m.is_binary) = false → stdoutIter m = some [] := by
  refine ⟨stdoutLoop_text q fun m hm => ?_, fun m hm => ?_⟩
  · obtain ⟨wire, hw⟩ := h m hm
    obtain ⟨r, _, he⟩ := mem_readTask_process hw
    exact sendStdout_text_of_mem_process he
  · simp [stdoutIter, hm]

/-- Witness for C8 at the spec's Scenario B: `Text("world")` prints
`<< world` exactly once. -/
theorem c8_witness :
    stdoutLoop [Message.text "world"] =
        some ([Message.text "world"].map fun m => "<< " ++ m.textPayload) ∧
      ∀ m : Message, (m.is_text || m.is_binary) = false → stdoutIter m = some [] :=
  c8_output_loop_prints [Message.text "world"]
    (by
      intro m hm
      simp only [List.mem_singleton] at hm
      subst hm
      exact ⟨[.ok (.text "world")], by decide⟩)

/-- C5: a transport-level read error delivered to the receive sub-task is
processed in one atomic step that announces the failure (`println!` of the
painted `Connection Closed` message) and calls `process::exit(1)` — a
non-zero status.  The step writes to neither queue, and from the resulting
state no context can take any further step, so no further queue writes are
attempted. -/
theorem c5_read_error_fatal (s : SysState) (e : String) (rest : List WsReadResult)
    (hrun : s.status = .running) (hrd : s.readDone = false) (hw : s.wire = .err e :: rest) :
    ∃ t, Step s t ∧ t.status = .exited 1 ∧ t.outboundQ = s.outboundQ ∧
      t.stdoutQ = s.stdoutQ ∧ t.transmitted = s.transmitted ∧
      t.printed = s.printed ++ ["", ansiPaint 31 ("Connection Closed: " ++ e)] ∧
      ∀ u, ¬ Step t u := by
  refine ⟨_, Step.readMsg s (.err e) rest hrun hrd hw
    (fun hx => by simp [needsOutboundSpace] at hx), ?_⟩
  have hrun' : ({ s with wire := rest } : SysState).status = .running := hrun
  rw [applyEffects_err _ hrun' e]
  refine ⟨rfl, rfl, rfl, rfl, rfl, ?_⟩
  intro u hu
  have hr := step_requires_running hu
  simp at hr

/-- Witness for C5: a read error with both queues non-empty; the step
leaves them untouched and kills the process. -/
theorem c5_witness :
    ∃ t,
      Step
        { initState [] [.err "Connection reset without closing handshake"] false with
          outboundQ := [Message.text "queued"], stdoutQ := [Message.text "pending"] } t ∧
      t.status = .exited 1 ∧
      t.outboundQ =
        ({ initState [] [.err "Connection reset without closing handshake"] false with
           outboundQ := [Message.text "queued"],
           stdoutQ := [Message.text "pending"] } : SysState).outboundQ ∧
      t.stdoutQ =
        ({ initState [] [.err "Connection reset without closing handshake"] false with
           outboundQ := [Message.text "queued"],
           stdoutQ := [Message.text "pending"] } : SysState).stdoutQ ∧
      t.transmitted =
        ({ initState [] [.err "Connection reset without closing handshake"] false with
           outboundQ := [Message.text "queued"],
           stdoutQ := [Message.text "pending"] } : SysState).transmitted ∧
      t.printed =
        ({ initState [] [.err "Connection reset without closing handshake"] false with
           outboundQ := [Message.text "queued"],
           stdoutQ := [Message.text "pending"] } : SysState).printed ++
          ["", ansiPaint 31 ("Connection Closed: " ++
            "Connection reset without closing handshake")] ∧
      ∀ u, ¬ Step t u :=
  c5_read_error_fatal _ "Connection reset without closing handshake" [] rfl rfl rfl

/-- C6: a received close frame is processed in one atomic step (the match
arm has no suspension point, and the two sub-tasks share one executor
thread) that announces the closure and calls `process::exit(0)` — success.
The step transmits nothing, and from the resulting state no context can
take any further step, so no further frame is transmitted even though the
outbound queue may be non-empty. -/
theorem c6_close_exits_zero (s : SysState) (r : Option String) (rest : List WsReadResult)
    (hrun : s.status = .running) (hrd : s.readDone = false)
    (hw : s.wire = .ok (.close r) :: rest) :
    ∃ t, Step s t ∧ t.status = .exited 0 ∧ t.transmitted = s.transmitted ∧
      t.outboundQ = s.outboundQ ∧
      t.printed = s.printed ++ ["", ansiPaint 31 "Connection Closed: Close message received"] ∧
      ∀ u, ¬ Step t u := by
  refine ⟨_, Step.readMsg s (.ok (.close r)) rest hrun hrd hw
    (fun hx => by simp [needsOutboundSpace] at hx), ?_⟩
  have hrun' : ({ s with wire := rest } : SysState).status = .running := hrun
  rw [applyEffects_close _ hrun' r]
  refine ⟨rfl, rfl, rfl, rfl, ?_⟩
  intro u hu
  have hr := step_requires_running hu
  simp at hr

/-- Witness for C6 at the spec's Scenario C: a reasonless close frame with
a non-empty outbound queue; nothing more is transmitted and the process
exits 0. -/
theorem c6_witness :
    ∃ t,
      Step
        { initState [] [.ok (.close none)] false with
          outboundQ := [Message.text "queued"] } t ∧
      t.status = .exited 0 ∧
      t.transmitted =
        ({ initState [] [.ok (.close none)] false with
           outboundQ := [Message.text "queued"] } : SysState).transmitted ∧
      t.outboundQ =
        ({ initState [] [.ok (.close none)] false with
           outboundQ := [Message.text "queued"] } : SysState).outboundQ ∧
      t.printed =
        ({ initState [] [.ok (.close none)] false with
           outboundQ := [Message.text "queued"] } : SysState).printed ++
          ["", ansiPaint 31 "Connection Closed: Close message received"] ∧
      ∀ u, ¬ Step t u :=
  c6_close_exits_zero _ none [] rfl rfl rfl

/-- C7: an interrupt signal delivered while the input loop blocks on
`read_line()` is `process::exit(0)` in a single step: the whole process
exits with status 0 whatever the state of the other two contexts (the
state is arbitrary beyond the three hypotheses), and no further step —
hence no second interrupt — is ever needed or possible. -/
theorem c7_interrupt_exits (s : SysState) (rest : List ReadResult)
    (hrun : s.status = .running) (hph : s.mainPhase = .inputLoop)
    (hst : s.stdin = .signal .interrupt :: rest) :
    ∃ t, Step s t ∧ t.status = .exited 0 ∧ ∀ u, ¬ Step t u := by
  refine ⟨_, Step.stdinInterrupt s rest hrun hph hst, rfl, ?_⟩
  intro u hu
  have hr := step_requires_running hu
  simp at hr

/-- Witness for C7: an interrupt while the other two contexts are mid-work
(non-empty wire, outbound and stdout queues). -/
theorem c7_witness :
    ∃ t,
      Step
        { initState [.signal .interrupt] [.ok (.text "busy")] false with
          outboundQ := [Message.text "queued"], stdoutQ := [Message.text "pending"] } t ∧
      t.status = .exited 0 ∧ ∀ u, ¬ Step t u :=
  c7_interrupt_exits _ [] rfl rfl rfl

/-- C3: the claim says that when the input loop ends on end-of-input the
outbound queue's producer side is closed, the transmit sub-task ends, the
joins finish and the process exits 0.  In the code `wscat_client` still
owns an outbound `Sender` during the joins (line 28, dropped only when the
function returns, after line 74), so after the end-of-input step the
producer side is not closed and no context can take any step at all: the
receive sub-task waits on an idle wire, the transmit sub-task on a
still-open empty channel, the stdout loop on a still-open empty channel,
and the join on the ws thread — the process hangs forever, still
`running`, instead of exiting with success. -/
theorem c3_eof_join_deadlock :
    Step c3Init c3Stuck ∧ c3Stuck.status = .running ∧ outboundClosed c3Stuck = false ∧
      ∀ t, ¬ Step c3Stuck t := by
  refine ⟨Step.stdinEof c3Init [] rfl rfl rfl, rfl, rfl, ?_⟩
  intro t h
  cases h <;> simp_all [c3Stuck, c3Init, initState, outboundClosed, stdoutClosed]

/-- No step grows the outbound channel past its capacity of 10: the two
blocking sends are guarded by space, everything else leaves it alone or
drains it. -/
theorem step_outbound_le {s t : SysState} (h : Step s t) (hle : s.outboundQ.length ≤ 10) :
    t.outboundQ.length ≤ 10 := by
  cases h with
  | stdinInput str rest hrun hph hst hcap =>
    show (s.outboundQ ++ [Message.text str]).length ≤ 10
    simp only [List.length_append, List.length_cons, List.length_nil]
    omega
  | stdinInterrupt rest hrun hph hst => exact hle
  | stdinOtherSig sig rest hrun hph hst hsig => exact hle
  | stdinEof rest hrun hph hst => exact hle
  | joinWs hrun hph hws => exact hle
  | joinStdout hrun hph hsd => exact hle
  | readMsg m rest hrun hrd hw hcap =>
    cases m with
    | err e =>
      rw [applyEffects_err { s with wire := rest } hrun e]
      exact hle
    | ok msg =>
      cases msg with
      | text s' => simpa [processWsMessage, applyEffects, applyEffect, hrun] using hle
      | binary b =>
        cases hd : utf8DecodeString b with
        | some s' => simpa [processWsMessage, applyEffects, applyEffect, hrun, hd] using hle
        | none => simpa [processWsMessage, applyEffects, applyEffect, hrun, hd] using hle
      | ping p =>
        have hlt := hcap rfl
        simp only [processWsMessage, applyEffects, applyEffect, hrun, List.foldl_cons,
          List.foldl_nil]
        simp [hrun]
        omega
      | pong p => simpa [processWsMessage, applyEffects, applyEffect, hrun] using hle
      | close r =>
        rw [applyEffects_close { s with wire := rest } hrun r]
        exact hle
  | readEnd hrun hrd hw hc => exact hle
  | wsSelect hrun hws hdone => exact hle
  | writeSend m rest hrun hwd hq =>
    have hlen : s.outboundQ.length = rest.length + 1 := by rw [hq]; rfl
    show rest.length ≤ 10
    omega
  | writeEnd hrun hwd hq hc => exact hle
  | stdoutMsg m rest hrun hsd hq =>
    rw [stdoutApply_outboundQ]
    exact hle
  | stdoutEnd hrun hsd hq hc => exact hle

/-- The capacity bound is an invariant of every reachable state. -/
theorem reachable_outbound_le {a s : SysState} (ha : a.outboundQ.length ≤ 10)
    (h : Reachable a s) : s.outboundQ.length ≤ 10 := by
  have h' : Relation.ReflTransGen Step a s := h
  clear h
  induction h' with
  | refl => exact ha
  | tail hr hstep ih => exact step_outbound_le hstep ih

/-- With the outbound channel full, no step consumes a pending input line:
the input loop's blocking send is disabled and every other context leaves
the stdin stream alone — the line blocks, it is not dropped. -/
theorem full_input_blocks {s t : SysState} {str : String} {rest : List ReadResult}
    (hq : s.outboundQ.length = 10) (hst : s.stdin = ReadResult.input str :: rest)
    (h : Step s t) : t.stdin = s.stdin := by
  cases h with
  | stdinInput str' rest' hrun hph hst' hcap => exact absurd hq (by omega)
  | stdinInterrupt rest' hrun hph hst' => rw [hst'] at hst; simp at hst
  | stdinOtherSig sig rest' hrun hph hst' hsig => rw [hst'] at hst; simp at hst
  | stdinEof rest' hrun hph hst' => rw [hst'] at hst; simp at hst
  | joinWs hrun hph hws => rfl
  | joinStdout hrun hph hsd => rfl
  | readMsg m rest' hrun hrd hw hcap => exact applyEffects_stdin _ _
  | readEnd hrun hrd hw hc => rfl
  | wsSelect hrun hws hdone => rfl
  | writeSend m rest' hrun hwd hq' => rfl
  | writeEnd hrun hwd hq' hc => rfl
  | stdoutMsg m rest' hrun hsd hq' => exact stdoutApply_stdin _ _
  | stdoutEnd hrun hsd hq' hc => rfl

/-- With the outbound channel full, no step consumes a pending `Ping`
frame: the receive sub-task's blocking reply send is disabled and every
other context leaves the wire alone — the frame blocks, it is not
dropped. -/
theorem full_ping_blocks {s t : SysState} {p : List Nat} {rest : List WsReadResult}
    (hq : s.outboundQ.length = 10) (hw : s.wire = .ok (.ping p) :: rest)
    (h : Step s t) : t.wire = s.wire := by
  cases h with
  | stdinInput str rest' hrun hph hst hcap => rfl
  | stdinInterrupt rest' hrun hph hst => rfl
  | stdinOtherSig sig rest' hrun hph hst hsig => rfl
  | stdinEof rest' hrun hph hst => rfl
  | joinWs hrun hph hws => rfl
  | joinStdout hrun hph hsd => rfl
  | readMsg m rest' hrun hrd hw' hcap =>
    rw [hw'] at hw
    injection hw with hm hrest
    have hlt := hcap (by rw [hm]; rfl)
    exact absurd hq (by omega)
  | readEnd hrun hrd hw' hc => rw [hw'] at hw
  | wsSelect hrun hws hdone => rfl
  | writeSend m rest' hrun hwd hq' => rfl
  | writeEnd hrun hwd hq' hc => rfl
  | stdoutMsg m rest' hrun hsd hq' => exact stdoutApply_wire _ _
  | stdoutEnd hrun hsd hq' hc => rfl

/-- Typing the next of the ten pending lines while the transmit sub-task
never runs: one input-loop step from `fillState k` to `fillState (k+1)`. -/
theorem fill_step (k : Nat) (hk : k < 10) : Step (fillState k) (fillState (k + 1)) := by
  have hst : (fillState k).stdin =
      ReadResult.input "x" :: List.replicate (10 - (k + 1)) (ReadResult.input "x") := by
    show List.replicate (10 - k) (ReadResult.input "x") = _
    rw [show 10 - k = (10 - (k + 1)) + 1 from by omega, List.replicate_succ]
  have hcap : (fillState k).outboundQ.length < 10 := by
    show (List.replicate k (Message.text "x")).length < 10
    simpa using hk
  have h := Step.stdinInput (fillState k) "x"
    (List.replicate (10 - (k + 1)) (ReadResult.input "x")) rfl rfl hst hcap
  have heq :
      ({ fillState k with
          stdin := List.replicate (10 - (k + 1)) (ReadResult.input "x"),
          history := (fillState k).history ++ ["x"],
          outboundQ := (fillState k).outboundQ ++ [Message.text "x"] } : SysState) =
        fillState (k + 1) := by
    ext <;> simp [fillState, List.replicate_succ']
  exact heq ▸ h

/-- The queue-filling run is a reachable execution. -/
theorem fill_reach : ∀ k, k ≤ 10 → Reachable (fillState 0) (fillState k) := by
  intro k
  induction k with
  | zero => intro _; exact Relation.ReflTransGen.refl
  | succ n ih =>
    intro hk
    exact Relation.ReflTransGen.tail (ih (by omega)) (fill_step n (by omega))

/-- C10: the outbound queue's capacity is exactly 10
(`piper::chan::<Message>(10)`, client.rs line 28): (1) every state
reachable from a fresh session holds at most 10 outbound messages; (2) a
pending input line with the queue full is not consumed by any step — the
input loop blocks without dropping it; (3) a pending `Ping` frame with the
queue full likewise blocks the receive sub-task's reply send; (4) as soon
as the queue has space the blocking producer's send step is enabled and
delivers the message; (5) the bound 10 is attained by a reachable state,
so no smaller capacity describes the channel. -/
theorem c10_outbound_capacity :
    (∀ (stdinEv : List ReadResult) (wire : List WsReadResult) (wc : Bool) (s : SysState),
      Reachable (initState stdinEv wire wc) s → s.outboundQ.length ≤ 10) ∧
    (∀ (s t : SysState) (str : String) (rest : List ReadResult),
      s.outboundQ.length = 10 → s.stdin = ReadResult.input str :: rest →
      Step s t → t.stdin = s.stdin) ∧
    (∀ (s t : SysState) (p : List Nat) (rest : List WsReadResult),
      s.outboundQ.length = 10 → s.wire = WsReadResult.ok (Message.ping p) :: rest →
      Step s t → t.wire = s.wire) ∧
    (∀ (s : SysState) (str : String) (rest : List ReadResult),
      s.status = .running → s.mainPhase = .inputLoop →
      s.stdin = ReadResult.input str :: rest → s.outboundQ.length < 10 →
      ∃ t, Step s t ∧ t.outboundQ = s.outboundQ ++ [Message.text str] ∧ t.stdin = rest) ∧
    (∃ s, Reachable (initState (List.replicate 10 (ReadResult.input "x")) [] false) s ∧
      s.outboundQ.length = 10) := by
  refine ⟨?_, ?_, ?_, ?_, ?_⟩
  · intro stdinEv wire wc s h
    exact reachable_outbound_le (by simp [initState]) h
  · intro s t str rest hq hst h
    exact full_input_blocks hq hst h
  · intro s t p rest hq hw h
    exact full_ping_blocks hq hw h
  · intro s str rest hrun hph hst hcap
    exact ⟨_, Step.stdinInput s str rest hrun hph hst hcap, rfl, rfl⟩
  · exact ⟨fillState 10, fill_reach 10 (by omega), by simp [fillState]⟩

/-- Witness for C10: the bound holds at a fresh session state. -/
theorem c10_witness :
    (initState [] [] false).outboundQ.length ≤ 10 :=
  c10_outbound_capacity.1 [] [] false (initState [] [] false) Relation.ReflTransGen.refl

end Wscat
